import Mathlib

/-!
Verification of the multi-tenant RBAC authorization core of the
fastapi-casbin-simple backend.

The policy data model and enforcement algorithm are configured by the model
string `MODEL_CONF` in `src/casbin_config.py`:

  r = sub, dom, obj, act
  p = sub, dom, obj, act
  g = _, _, _
  e = some(where (p.eft == allow))
  m = g(r.sub, p.sub, r.dom) && (r.dom == p.dom || p.dom == '*') &&
      keyMatch2(r.obj, p.obj) && (r.act == p.act || p.act == '*')

The enforcement engine interpreting this configuration is the external
casbin library; its builtins (`keyMatch2`, the `g` role-link relation, the
duplicate-absorbing `add_policy` / `add_grouping_policy` store operations)
are not part of this repository's sources and are modelled here from the
spec's description of their semantics.  The permission-check dependency,
the administrative assignment operations and the menu projection are
embedded directly from `src/permissions.py` and `src/routers/permissions.py`.
-/

namespace FastapiCasbin

/-- A permission policy tuple `p = sub, dom, obj, act`
(policy_definition in `MODEL_CONF`). -/
structure PermissionPolicy where
  sub : String
  dom : String
  obj : String
  act : String
deriving DecidableEq, Repr

/-- A grouping policy tuple `g = _, _, _` (role_definition in `MODEL_CONF`):
member, role, domain. -/
structure GroupingPolicy where
  member : String
  role : String
  dom : String
deriving DecidableEq, Repr

/-- The policy store: the permission policies and grouping policies held by
the enforcer (casbin's in-memory policy lists, loaded from the adapter). -/
structure PolicyStore where
  policies : List PermissionPolicy
  groupings : List GroupingPolicy
deriving DecidableEq, Repr

/-- Modelled from the spec: segment-wise object-path matching underlying the
`keyMatch2` builtin named by `MODEL_CONF`'s matcher (the builtin lives in the
external casbin library, not in this repository).  Per the spec, segments are
compared component-wise after splitting on `/`; a policy segment `*` matches
any single request segment; if the policy pattern ends while request segments
remain, the match fails unless the policy pattern's last segment is exactly
`*`, which then matches the remainder.  The first list is the policy
pattern's segments, the second the request object's segments. -/
def seg_match : List String → List String → Bool
  | [], rs => rs.isEmpty
  | _ :: _, [] => false
  | p :: ps, r :: rs =>
    if ps.isEmpty && p == "*" then true
    else (p == "*" || p == r) && seg_match ps rs

/-- Splitting a character list on the separator `/`, accumulating the
current segment in reverse: the structural-recursion rendering of
splitting a path string on `/`. -/
def split_slash_aux : List Char → List Char → List String
  | [], acc => [String.mk acc.reverse]
  | c :: cs, acc =>
    if c = '/' then String.mk acc.reverse :: split_slash_aux cs []
    else split_slash_aux cs (c :: acc)

/-- A path string split into its `/`-separated segments. -/
def split_slash (s : String) : List String :=
  split_slash_aux s.data []

/-- Modelled from the spec: the `keyMatch2` builtin referenced by
`MODEL_CONF`'s matcher.  `key1` is the request object, `key2` the policy
object pattern, matching the call `keyMatch2(r.obj, p.obj)`; both are split
on `/` and compared segment-wise. -/
def key_match2 (key1 key2 : String) : Bool :=
  seg_match (split_slash key2) (split_slash key1)

/-- Modelled from the spec: the role-link relation `g(u, v, dom)` for the
three-place role_definition.  It holds when `v` is `u` itself or when a
grouping policy grants role `v` to member `u` in the requested domain or in
the wildcard domain `*`; role expansion is exactly one hop (role-to-role
inheritance is not modelled). -/
def g_link (gs : List GroupingPolicy) (u v dom : String) : Bool :=
  u == v ||
    gs.any (fun gp => gp.member == u && gp.role == v && (gp.dom == dom || gp.dom == "*"))

/-- Modelled from the spec: `effectiveSubjects(subject, domain)` — the
subject itself together with every role granted to it by a grouping policy
whose domain is the requested domain or the wildcard domain `*`. -/
def effectiveSubjects (gs : List GroupingPolicy) (sub dom : String) : List String :=
  sub ::
    (gs.filter (fun gp => gp.member == sub && (gp.dom == dom || gp.dom == "*"))).map
      GroupingPolicy.role

/-- The matcher expression `m` of `MODEL_CONF` in `src/casbin_config.py`:
`g(r.sub, p.sub, r.dom) && (r.dom == p.dom || p.dom == '*') &&
keyMatch2(r.obj, p.obj) && (r.act == p.act || p.act == '*')`. -/
def matcher (gs : List GroupingPolicy) (sub dom obj act : String)
    (p : PermissionPolicy) : Bool :=
  g_link gs sub p.sub dom &&
    (dom == p.dom || p.dom == "*") &&
    key_match2 obj p.obj &&
    (act == p.act || p.act == "*")

/-- The enforcement decision under `MODEL_CONF`'s effect
`e = some(where (p.eft == allow))`: allow iff some stored policy satisfies
the matcher.  Policies in this model carry no effect column, so every
stored policy's effect is `allow` (casbin's default). -/
def enforce (st : PolicyStore) (sub dom obj act : String) : Bool :=
  st.policies.any (matcher st.groupings sub dom obj act)

/-- Modelled from the spec: the store's `addPolicy` — adding an
already-present tuple is absorbed silently (idempotent write, no duplicate
row); the casbin `add_policy` implementation is library code outside this
repository. -/
def add_policy (st : PolicyStore) (p : PermissionPolicy) : PolicyStore :=
  if p ∈ st.policies then st else { st with policies := st.policies ++ [p] }

/-- Modelled from the spec: the store's `addGrouping` — duplicate grouping
tuples are absorbed silently, as for `add_policy`. -/
def add_grouping_policy (st : PolicyStore) (gp : GroupingPolicy) : PolicyStore :=
  if gp ∈ st.groupings then st else { st with groupings := st.groupings ++ [gp] }

/-- `assign_role_permission` from `src/permissions.py`: subject
`role:<role_id>`, domain `str(workspace_id)`, object
`<resource_type>:<workspace_id>:<resource_path>`. -/
def assign_role_permission (st : PolicyStore) (role_id workspace_id : Nat)
    (resource_type resource_path action : String) : PolicyStore :=
  add_policy st
    { sub := "role:" ++ toString role_id
      dom := toString workspace_id
      obj := resource_type ++ ":" ++ toString workspace_id ++ ":" ++ resource_path
      act := action }

/-- `assign_user_permission` from `src/permissions.py`: subject
`user:<user_id>`, domain `str(workspace_id)`, object
`<resource_type>:<workspace_id>:<resource_path>`. -/
def assign_user_permission (st : PolicyStore) (user_id workspace_id : Nat)
    (resource_type resource_path action : String) : PolicyStore :=
  add_policy st
    { sub := "user:" ++ toString user_id
      dom := toString workspace_id
      obj := resource_type ++ ":" ++ toString workspace_id ++ ":" ++ resource_path
      act := action }

/-- `assign_user_role` from `src/permissions.py`: grouping
`(user:<user_id>, role:<role_id>, str(workspace_id))`. -/
def assign_user_role (st : PolicyStore) (user_id role_id workspace_id : Nat) :
    PolicyStore :=
  add_grouping_policy st
    { member := "user:" ++ toString user_id
      role := "role:" ++ toString role_id
      dom := toString workspace_id }

/-- The caller's user record as seen by the permission layer:
`models.User` restricted to the fields `check_permission` and
`get_user_menus` read (`id`, `is_superuser`). -/
structure User where
  id : Nat
  is_superuser : Bool
deriving DecidableEq, Repr

/-- A FastAPI `HTTPException` restricted to the fields the permission layer
sets: status code and detail message. -/
structure HTTPException where
  status_code : Nat
  detail : String
deriving DecidableEq, Repr

/-- The `workspace_id` lookup loop of `check_permission` in
`src/permissions.py`: scan `request.path_params` for the first entry named
`workspace_id` and take its value. -/
def find_workspace_id (params : List (String × String)) : Option String :=
  match params.find? (fun kv => kv.fst == "workspace_id") with
  | some kv => some kv.snd
  | none => none

/-- The path-parameter substitution loop of `check_permission`: for each
path parameter, replace every occurrence of the placeholder
`\x7bname\x7d` and of `:name` in the resource path by the parameter's
value. -/
def substitute_path_params (path : String) (params : List (String × String)) :
    String :=
  params.foldl
    (fun acc kv =>
      ((acc.replace ("\x7b" ++ kv.fst ++ "\x7d") kv.snd).replace
        (":" ++ kv.fst) kv.snd))
    path

/-- `check_permission` from `require_permission` in `src/permissions.py`:
superusers pass immediately; otherwise a missing (or empty, by Python
truthiness) `workspace_id` path parameter raises a 400; otherwise the
request is enforced and a deny raises a 403; an allow returns `True`. -/
def check_permission (st : PolicyStore)
    (resource_type resource_path action : String)
    (path_params : List (String × String)) (current_user : User) :
    Except HTTPException Bool :=
  if current_user.is_superuser then .ok true
  else
    match find_workspace_id path_params with
    | none => .error { status_code := 400, detail := "缺少工作区ID参数" }
    | some workspace_id =>
      if workspace_id == "" then
        .error { status_code := 400, detail := "缺少工作区ID参数" }
      else
        let user_key := "user:" ++ toString current_user.id
        let actual_path := substitute_path_params resource_path path_params
        let resource_obj := resource_type ++ ":" ++ workspace_id ++ ":" ++ actual_path
        if enforce st user_key workspace_id resource_obj action then .ok true
        else
          .error
            { status_code := 403
              detail := "没有足够的权限执行此操作: [" ++ resource_type ++ "] " ++
                actual_path ++ " [" ++ action ++ "]" }

/-- A menu row as read by the projection: `models.Menu` restricted to
`id`, `name`, `path`, `parent_id`. -/
structure Menu where
  id : Nat
  name : String
  path : String
  parent_id : Option Nat
deriving DecidableEq, Repr

/-- The per-menu visibility check of `get_user_menus` in
`src/permissions.py`: enforce `(user:<id>, str(workspace_id),
menu:<workspace_id>:<path>, read)`. -/
def menu_read_check (st : PolicyStore) (user_id workspace_id : Nat)
    (menu : Menu) : Bool :=
  enforce st ("user:" ++ toString user_id) (toString workspace_id)
    ("menu:" ++ toString workspace_id ++ ":" ++ menu.path) "read"

/-- `get_user_menus` from `src/permissions.py`: a superuser receives all
menus unfiltered; otherwise each menu is kept iff its own visibility check
passes. -/
def get_user_menus (st : PolicyStore) (all_menus : List Menu) (user : User)
    (workspace_id : Nat) : List Menu :=
  if user.is_superuser then all_menus
  else all_menus.filter (menu_read_check st user.id workspace_id)

/-- A node of the reassembled menu tree returned by the router
(`id`, `name`, `path`, `children`). -/
structure MenuItem where
  id : Nat
  name : String
  path : String
  children : List MenuItem
deriving Repr

/-- `build_menu_tree` from `src/routers/permissions.py` (the branch where
`all_menus` is supplied): for each root, its children are the menus of
`all_menus` whose `parent_id` equals the root's id, built recursively.  The
source recursion has no explicit bound and terminates exactly when parent
links are acyclic; `fuel` bounds the recursion depth, and any fuel at least
the forest's depth reproduces the source's output. -/
def build_menu_tree : Nat → List Menu → List Menu → List MenuItem
  | 0, _, _ => []
  | fuel + 1, roots, all_menus =>
    roots.map (fun root =>
      let children := all_menus.filter (fun m => m.parent_id == some root.id)
      { id := root.id
        name := root.name
        path := root.path
        children :=
          if children.isEmpty then [] else build_menu_tree fuel children all_menus })

/-- The menu endpoint's projection pipeline from `get_user_menus` in
`src/routers/permissions.py`: filter the menus through the per-node
visibility check, take the accessible menus with no parent as roots, and
reassemble the tree from those roots over the accessible menus only. -/
def user_menu_tree (st : PolicyStore) (all_menus : List Menu) (user : User)
    (workspace_id : Nat) : List MenuItem :=
  let accessible := get_user_menus st all_menus user workspace_id
  let root_menus := accessible.filter (fun m => m.parent_id.isNone)
  build_menu_tree (all_menus.length + 1) root_menus accessible

/-! ## Theorems -/

/-- The role-link relation of the matcher holds exactly for the members of
`effectiveSubjects`: the subject itself and its roles in the matching
domain. -/
theorem g_link_eq_true_iff (gs : List GroupingPolicy) (u v dom : String) :
    g_link gs u v dom = true ↔ v ∈ effectiveSubjects gs u dom := by
  simp only [g_link, effectiveSubjects, List.any_eq_true, Bool.or_eq_true,
    Bool.and_eq_true, beq_iff_eq, List.mem_cons, List.mem_map, List.mem_filter]
  constructor
  · rintro (h | ⟨gp, hmem, ⟨hm, hr⟩, hd⟩)
    · exact Or.inl h.symm
    · exact Or.inr ⟨gp, ⟨hmem, hm, hd⟩, hr⟩
  · rintro (h | ⟨gp, ⟨hmem, hm, hd⟩, hr⟩)
    · exact Or.inl h.symm
    · exact Or.inr ⟨gp, hmem, ⟨hm, hr⟩, hd⟩

/-- C1: for a non-superuser request, the enforcement decision is allow iff
some stored permission policy whose subject is the requester or one of its
effective roles matches the request's domain, object and action; with an
empty policy set (and so whenever no policy matches) `enforce` returns
`false` — absence of a matching allow policy is the only way to deny. -/
theorem enforce_allow_iff_matching_policy (st : PolicyStore)
    (sub dom obj act : String) :
    (enforce st sub dom obj act = true ↔
      ∃ p ∈ st.policies,
        p.sub ∈ effectiveSubjects st.groupings sub dom ∧
        (dom == p.dom || p.dom == "*") = true ∧
        key_match2 obj p.obj = true ∧
        (act == p.act || p.act == "*") = true) ∧
    (st.policies = [] → enforce st sub dom obj act = false) := by
  refine ⟨?_, fun h => by simp [enforce, h]⟩
  simp only [enforce, List.any_eq_true, matcher, Bool.and_eq_true,
    g_link_eq_true_iff, and_assoc]

/-- C1 witness: on the empty store the decision is deny. -/
theorem enforce_allow_iff_matching_policy_witness :
    enforce { policies := [], groupings := [] } "user:1" "w1" "api:w1:x" "read" =
      false :=
  (enforce_allow_iff_matching_policy { policies := [], groupings := [] }
    "user:1" "w1" "api:w1:x" "read").2 rfl

/-- C2: a policy matches a request iff the role-link, domain, object-path
and action rules all hold simultaneously, and the failure of any single
dimension makes the policy non-matching. -/
theorem matcher_requires_all_dimensions (gs : List GroupingPolicy)
    (sub dom obj act : String) (p : PermissionPolicy) :
    (matcher gs sub dom obj act p = true ↔
      g_link gs sub p.sub dom = true ∧
      (dom = p.dom ∨ p.dom = "*") ∧
      key_match2 obj p.obj = true ∧
      (act = p.act ∨ p.act = "*")) ∧
    ((dom == p.dom || p.dom == "*") = false → matcher gs sub dom obj act p = false) ∧
    (key_match2 obj p.obj = false → matcher gs sub dom obj act p = false) ∧
    ((act == p.act || p.act == "*") = false → matcher gs sub dom obj act p = false) := by
  refine ⟨?_, fun h => by simp [matcher, h], fun h => by simp [matcher, h],
    fun h => by simp [matcher, h]⟩
  simp only [matcher, Bool.and_eq_true, Bool.or_eq_true, beq_iff_eq, and_assoc]

/-- C2 witness: a policy whose domain rule fails does not match. -/
theorem matcher_requires_all_dimensions_witness :
    matcher [] "user:1" "w2" "api:w2:x" "read"
      { sub := "user:1", dom := "w1", obj := "api:w2:x", act := "read" } = false :=
  (matcher_requires_all_dimensions [] "user:1" "w2" "api:w2:x" "read"
    { sub := "user:1", dom := "w1", obj := "api:w2:x", act := "read" }).2.1
    (by decide)

/-- C3: the object-path match is segment-wise after splitting on `/`: in a
non-final position a policy segment `*` matches exactly one request
segment and otherwise segments must be equal; an exhausted policy pattern
fails on remaining request segments, except that a final policy segment
exactly `*` matches the whole remainder; concretely,
`api:w1:collections/*` matches `api:w1:collections/42` and
`api:w1:collections/abc` but not `api:w1:datasets/42`. -/
theorem key_match2_segment_semantics :
    (∀ (p : String) (ps : List String) (r : String) (rs : List String),
      ps ≠ [] →
        seg_match (p :: ps) (r :: rs) = ((p == "*" || p == r) && seg_match ps rs)) ∧
    (∀ (r : String) (rs : List String), seg_match ["*"] (r :: rs) = true) ∧
    (∀ (r : String) (rs : List String), seg_match [] (r :: rs) = false) ∧
    key_match2 "api:w1:collections/42" "api:w1:collections/*" = true ∧
    key_match2 "api:w1:collections/abc" "api:w1:collections/*" = true ∧
    key_match2 "api:w1:datasets/42" "api:w1:collections/*" = false := by
  refine ⟨?_, fun r rs => rfl, fun r rs => rfl, by decide, by decide, by decide⟩
  intro p ps r rs h
  match ps with
  | [] => exact absurd rfl h
  | a :: as => simp [seg_match]

/-- C3 witness: component-wise comparison on a non-final segment. -/
theorem key_match2_segment_semantics_witness :
    seg_match ["a", "b"] ["a", "c"] =
      (("a" == "*" || "a" == "a") && seg_match ["b"] ["c"]) :=
  key_match2_segment_semantics.1 "a" ["b"] "a" ["c"] (by decide)

/-- C4: the effective subjects for a subject and requested domain are
exactly the subject itself plus every role of a grouping policy whose
member is the subject and whose domain equals the requested domain or the
wildcard `*`; this set is what the matcher's role link consults, and a
grouping recorded with domain `*` grants its role in every concrete
domain. -/
theorem effective_subjects_characterization (gs : List GroupingPolicy)
    (sub dom v : String) :
    (v ∈ effectiveSubjects gs sub dom ↔
      v = sub ∨
        ∃ gp ∈ gs, gp.member = sub ∧ gp.role = v ∧ (gp.dom = dom ∨ gp.dom = "*")) ∧
    (g_link gs sub v dom = true ↔ v ∈ effectiveSubjects gs sub dom) ∧
    (∀ gp ∈ gs, gp.member = sub → gp.dom = "*" →
      gp.role ∈ effectiveSubjects gs sub dom) := by
  have hchar : v ∈ effectiveSubjects gs sub dom ↔
      v = sub ∨
        ∃ gp ∈ gs, gp.member = sub ∧ gp.role = v ∧ (gp.dom = dom ∨ gp.dom = "*") := by
    simp only [effectiveSubjects, List.mem_cons, List.mem_map, List.mem_filter,
      Bool.and_eq_true, Bool.or_eq_true, beq_iff_eq]
    constructor
    · rintro (h | ⟨gp, ⟨hmem, hm, hd⟩, hr⟩)
      · exact Or.inl h
      · exact Or.inr ⟨gp, hmem, hm, hr, hd⟩
    · rintro (h | ⟨gp, hmem, hm, hr, hd⟩)
      · exact Or.inl h
      · exact Or.inr ⟨gp, ⟨hmem, hm, hd⟩, hr⟩
  refine ⟨hchar, g_link_eq_true_iff gs sub v dom, ?_⟩
  intro gp hmem hm hd
  simp only [effectiveSubjects, List.mem_cons, List.mem_map, List.mem_filter,
    Bool.and_eq_true, Bool.or_eq_true, beq_iff_eq]
  exact Or.inr ⟨gp, ⟨hmem, hm, Or.inr hd⟩, rfl⟩

/-- C4 witness: a wildcard-domain grouping grants its role in the concrete
domain `w7`. -/
theorem effective_subjects_characterization_witness :
    "role:9" ∈
      effectiveSubjects [{ member := "user:3", role := "role:9", dom := "*" }]
        "user:3" "w7" :=
  (effective_subjects_characterization
      [{ member := "user:3", role := "role:9", dom := "*" }] "user:3" "w7"
      "role:9").2.2
    { member := "user:3", role := "role:9", dom := "*" } (by decide) rfl rfl

/-- The policy store of end-to-end scenario 2: one permission policy for
`role:1` in domain `w1` and one grouping giving `user:5` that role in
`w1`, added to an empty store. -/
def scenario2_store : PolicyStore :=
  add_grouping_policy
    (add_policy { policies := [], groupings := [] }
      { sub := "role:1", dom := "w1", obj := "api:w1:collections", act := "write" })
    { member := "user:5", role := "role:1", dom := "w1" }

/-- C5: in scenario 2 the in-domain request is allowed and the
cross-domain request is denied; in general an allow decision only ever
arises from a stored policy whose domain equals the request's domain or is
the wildcard `*`, so a role granted in one domain yields nothing through
that role's policies scoped to a different domain. -/
theorem role_domain_scoping :
    enforce scenario2_store "user:5" "w1" "api:w1:collections" "write" = true ∧
    enforce scenario2_store "user:5" "w2" "api:w1:collections" "write" = false ∧
    (∀ (st : PolicyStore) (sub dom obj act : String),
      enforce st sub dom obj act = true →
        ∃ p ∈ st.policies, dom = p.dom ∨ p.dom = "*") := by
  refine ⟨by decide, by decide, ?_⟩
  intro st sub dom obj act h
  simp only [enforce, List.any_eq_true] at h
  obtain ⟨p, hp, hm⟩ := h
  have hmm := ((matcher_requires_all_dimensions st.groupings sub dom obj act p).1).mp hm
  exact ⟨p, hp, hmm.2.1⟩

/-- C5 witness: the allow decision of scenario 2 comes from a policy whose
domain covers the request. -/
theorem role_domain_scoping_witness :
    ∃ p ∈ scenario2_store.policies, "w1" = p.dom ∨ p.dom = "*" :=
  role_domain_scoping.2.2 scenario2_store "user:5" "w1" "api:w1:collections"
    "write" (by decide)

/-- C6: a superuser caller passes the permission check with any policy
store (including the empty one), and the menu projection returns all menus
unfiltered for a superuser. -/
theorem superuser_bypass (st : PolicyStore)
    (resource_type resource_path action : String)
    (path_params : List (String × String)) (u : User) (all_menus : List Menu)
    (workspace_id : Nat) (hsu : u.is_superuser = true) :
    check_permission st resource_type resource_path action path_params u =
      .ok true ∧
    get_user_menus st all_menus u workspace_id = all_menus := by
  constructor
  · simp [check_permission, hsu]
  · simp [get_user_menus, hsu]

/-- C6 witness: a superuser with an empty policy store and no path
parameters is allowed, and keeps the whole menu list. -/
theorem superuser_bypass_witness :
    check_permission { policies := [], groupings := [] } "data" "datasets"
        "write" [] { id := 9, is_superuser := true } = .ok true ∧
    get_user_menus { policies := [], groupings := [] }
        [{ id := 1, name := "A", path := "/a", parent_id := none }]
        { id := 9, is_superuser := true } 3 =
      [{ id := 1, name := "A", path := "/a", parent_id := none }] :=
  superuser_bypass { policies := [], groupings := [] } "data" "datasets"
    "write" [] { id := 9, is_superuser := true }
    [{ id := 1, name := "A", path := "/a", parent_id := none }] 3 rfl

/-- Adding the same permission policy twice is the same as adding it once. -/
theorem add_policy_idem (st : PolicyStore) (p : PermissionPolicy) :
    add_policy (add_policy st p) p = add_policy st p := by
  by_cases h : p ∈ st.policies
  · simp [add_policy, h]
  · simp [add_policy, h]

/-- Adding the same grouping policy twice is the same as adding it once. -/
theorem add_grouping_policy_idem (st : PolicyStore) (gp : GroupingPolicy) :
    add_grouping_policy (add_grouping_policy st gp) gp = add_grouping_policy st gp := by
  by_cases h : gp ∈ st.groupings
  · simp [add_grouping_policy, h]
  · simp [add_grouping_policy, h]

/-- C7: each assignment operation is idempotent — repeating it with
identical arguments leaves the policy/grouping store identical to a single
call, with the duplicate absorbed silently rather than raising an error. -/
theorem assignments_idempotent (st : PolicyStore)
    (role_id user_id workspace_id : Nat)
    (resource_type resource_path action : String) :
    assign_role_permission
        (assign_role_permission st role_id workspace_id resource_type
          resource_path action)
        role_id workspace_id resource_type resource_path action =
      assign_role_permission st role_id workspace_id resource_type
        resource_path action ∧
    assign_user_permission
        (assign_user_permission st user_id workspace_id resource_type
          resource_path action)
        user_id workspace_id resource_type resource_path action =
      assign_user_permission st user_id workspace_id resource_type
        resource_path action ∧
    assign_user_role (assign_user_role st user_id role_id workspace_id)
        user_id role_id workspace_id =
      assign_user_role st user_id role_id workspace_id :=
  ⟨add_policy_idem _ _, add_policy_idem _ _, add_grouping_policy_idem _ _⟩

/-- C8 counterexample: a superuser caller whose request carries no
`workspace_id` path parameter is allowed immediately — the check returns
`True` instead of raising the bad-request error, because the superuser
short-circuit precedes the workspace-parameter check. -/
theorem missing_workspace_superuser_allowed :
    find_workspace_id [] = none ∧
    check_permission { policies := [], groupings := [] } "api" "collections"
        "read" [] { id := 1, is_superuser := true } = .ok true :=
  ⟨rfl, rfl⟩

/-- C8 amended: for every non-superuser caller, a request with no
`workspace_id` path parameter yields the bad-request (400) error, and the
outcome is the same for every policy store, so the enforcement core is
never consulted. -/
theorem missing_workspace_bad_request (st : PolicyStore)
    (resource_type resource_path action : String)
    (path_params : List (String × String)) (u : User)
    (hsu : u.is_superuser = false)
    (hmiss : find_workspace_id path_params = none) :
    check_permission st resource_type resource_path action path_params u =
      .error { status_code := 400, detail := "缺少工作区ID参数" } := by
  simp [check_permission, hsu, hmiss]

/-- C8 amended witness: a non-superuser with an empty parameter list gets
the 400 error. -/
theorem missing_workspace_bad_request_witness :
    check_permission { policies := [], groupings := [] } "api" "collections"
        "read" [] { id := 2, is_superuser := false } =
      .error { status_code := 400, detail := "缺少工作区ID参数" } :=
  missing_workspace_bad_request { policies := [], groupings := [] } "api"
    "collections" "read" [] { id := 2, is_superuser := false } rfl rfl

/-- The parent menu of the hidden-parent scenario: a root node. -/
def menuP : Menu := { id := 1, name := "A", path := "/a", parent_id := none }

/-- The child menu of the hidden-parent scenario: a child of `menuP`. -/
def menuC : Menu := { id := 2, name := "B", path := "/b", parent_id := some 1 }

/-- The policy store of the hidden-parent scenario: `user:7` may read only
the child menu's path in workspace 1. -/
def menu_store : PolicyStore :=
  { policies := [{ sub := "user:7", dom := "1", obj := "menu:1:/b", act := "read" }],
    groupings := [] }

/-- C9 counterexample: with the child's own check passing and the parent's
failing, the child survives the visibility filter but the reassembled tree
is empty — the hidden parent's visible child does NOT appear in the
result, contrary to the claim. -/
theorem hidden_parent_visible_child_dropped :
    menu_read_check menu_store 7 1 menuC = true ∧
    menu_read_check menu_store 7 1 menuP = false ∧
    get_user_menus menu_store [menuP, menuC] { id := 7, is_superuser := false } 1 =
      [menuC] ∧
    user_menu_tree menu_store [menuP, menuC] { id := 7, is_superuser := false } 1 =
      [] :=
  ⟨by decide, by decide, by decide, rfl⟩

/-- C9 amended: every menu node's visibility is evaluated independently of
its ancestors — a node is in the accessible list iff its own check passes —
but a visible node whose parent is hidden does not appear in the
reassembled tree: reassembly descends only from visible roots through
visible parents, so the orphaned visible child is dropped. -/
theorem menu_visibility_independent (st : PolicyStore) (all_menus : List Menu)
    (u : User) (workspace_id : Nat) (m : Menu) (hsu : u.is_superuser = false) :
    (m ∈ get_user_menus st all_menus u workspace_id ↔
      m ∈ all_menus ∧ menu_read_check st u.id workspace_id m = true) ∧
    user_menu_tree menu_store [menuP, menuC] { id := 7, is_superuser := false } 1 =
      [] := by
  refine ⟨?_, rfl⟩
  simp [get_user_menus, hsu, List.mem_filter]

/-- C9 amended witness: the child menu of the hidden-parent scenario is
accessible precisely because its own check passes. -/
theorem menu_visibility_independent_witness :
    (menuC ∈ get_user_menus menu_store [menuP, menuC]
        { id := 7, is_superuser := false } 1 ↔
      menuC ∈ [menuP, menuC] ∧ menu_read_check menu_store 7 1 menuC = true) ∧
    user_menu_tree menu_store [menuP, menuC] { id := 7, is_superuser := false } 1 =
      [] :=
  menu_visibility_independent menu_store [menuP, menuC]
    { id := 7, is_superuser := false } 1 menuC rfl

/-- C10: the permission-check dependency either returns `True` or raises an
`HTTPException` — the 400 bad-request for a missing workspace parameter or
a 403 forbidden for a denied decision; it never returns `False`. -/
theorem check_permission_result_shape (st : PolicyStore)
    (resource_type resource_path action : String)
    (path_params : List (String × String)) (u : User) :
    check_permission st resource_type resource_path action path_params u =
      .ok true ∨
    check_permission st resource_type resource_path action path_params u =
      .error { status_code := 400, detail := "缺少工作区ID参数" } ∨
    ∃ d, check_permission st resource_type resource_path action path_params u =
      .error { status_code := 403, detail := d } := by
  by_cases hsu : u.is_superuser = true
  · exact Or.inl (by simp [check_permission, hsu])
  · rw [Bool.not_eq_true] at hsu
    rcases hwid : find_workspace_id path_params with _ | wid
    · exact Or.inr (Or.inl (by simp [check_permission, hsu, hwid]))
    · by_cases hempty : wid = ""
      · exact Or.inr (Or.inl (by simp [check_permission, hsu, hwid, hempty]))
      · by_cases henf : enforce st ("user:" ++ toString u.id) wid
            (resource_type ++ ":" ++ wid ++ ":" ++
              substitute_path_params resource_path path_params) action = true
        · exact Or.inl (by simp [check_permission, hsu, hwid, hempty, henf])
        · rw [Bool.not_eq_true] at henf
          refine Or.inr (Or.inr ⟨"没有足够的权限执行此操作: [" ++ resource_type ++
            "] " ++ substitute_path_params resource_path path_params ++ " [" ++
            action ++ "]", ?_⟩)
          simp [check_permission, hsu, hwid, hempty, henf]

end FastapiCasbin
